import Mathlib

/-!
Verification development for the Game-View processing workers
(`src/packages/processing/modal_worker.py` and
`src/packages/processing/modal_worker_4d.py`).

The two Python files are shallowly embedded below.  External effects
(downloads, ffmpeg runs, the COLMAP / GLOMAP / OpenSplat / 4DGaussians
subprocesses, object-storage uploads, HTTP notification transport) are
opaque collaborators: their outcomes are inputs to the model (fields of an
environment record), and the orchestration logic that reacts to those
outcomes is translated statement by statement from the Python source.
Each pipeline run produces a trace of observable events (progress reports,
engine invocations, artifact uploads, cleanup, callback) together with the
result dictionary that the Python function returns.

Embedding conventions:
  * Python machine integers are `Nat`/`Int`; the real-valued sampling
    arithmetic `int(i * (N / M))` is embedded as the exact floor
    `i * N / M` in natural-number division (for `M = 0` the Python code
    raises `ZeroDivisionError`, which the models reproduce as an explicit
    error branch before the sampler is entered).
  * Python exceptions are explicit `Option String` error values threaded
    through the control flow; the `try/except/finally` structure of the
    workers is reproduced by the places where those values are produced
    and consumed.
  * ffmpeg frame extraction is summarised by the per-camera frame counts
    it yields (`framesPerCam`); ffmpeg is not a reconstruction engine and
    its invocations are not traced.
-/

/-- A frame reference: (camera index, frame index within that camera).
Python identifies frames by their file path `frames/camNN/frame_KKKK.jpg`;
the pair carries exactly that identity. -/
abbrev Frame := Nat × Nat

/-- `sampled_indices = [int(i * step) for i in range(max_frames)]` with
`step = total_extracted / max_frames` (modal_worker.py lines 303-304 and
modal_worker_4d.py lines 313-314), in exact arithmetic. -/
def sampleIndices (n m : Nat) : List Nat :=
  (List.range m).map (fun i => i * n / m)

/-- `all_frames = [all_frames[i] for i in sampled_indices]`
(modal_worker.py line 305). -/
def sampleFrames {α : Type} [Inhabited α] (l : List α) (m : Nat) : List α :=
  (sampleIndices l.length m).map (fun i => l.getD i default)

/-- The static worker's capping step (modal_worker.py lines 298-305):
`if total_extracted > max_frames:` apply uniform sampling, else keep the
list unchanged. -/
def capFrames {α : Type} [Inhabited α] (l : List α) (maxFrames : Nat) : List α :=
  if l.length > maxFrames then sampleFrames l maxFrames else l

/-- The 4D worker's per-camera capping step (modal_worker_4d.py lines
311-317): build the set `keep_indices` of sampled indices and delete every
frame whose position is not in it; the surviving frames keep their
original order. -/
def capCamera4d {α : Type} [Inhabited α] (l : List α) (maxFrames : Nat) : List α :=
  if l.length > maxFrames then
    ((l.enum.filter (fun p => decide (p.1 ∈ sampleIndices l.length maxFrames))).map Prod.snd)
  else l

/-- The per-camera frame sets, in camera order: camera `c` contributes
frames `(c, 0), (c, 1), ...` in extraction order (the sorted glob of
`cam{c}/ *.jpg`). -/
def extractedCams (numVideos : Nat) (framesPerCam : Nat → Nat) : List (List Frame) :=
  (List.range numVideos).map (fun c =>
    (List.range (framesPerCam c)).map (fun j => (c, j)))

/-- Sampling applied to each camera independently, then merged: the policy
the spec ascribes to multi-camera jobs.  (Written from the spec's words,
for comparison with what the workers actually compute.) -/
def perCameraCap (cams : List (List Frame)) (maxFrames : Nat) : List Frame :=
  (cams.map (fun c => capFrames c maxFrames)).flatten

/- ### Sampler lemmas -/

theorem sampleIndices_length (n m : Nat) : (sampleIndices n m).length = m := by
  simp [sampleIndices]

theorem sampleIndices_strict_step {n m : Nat} (h : m ≤ n) (hm : 0 < m) (i : Nat) :
    i * n / m + 1 ≤ (i + 1) * n / m := by
  have h1 : i * n + m ≤ (i + 1) * n := by
    have : i * n + m ≤ i * n + n := Nat.add_le_add_left h _
    calc i * n + m ≤ i * n + n := this
      _ = (i + 1) * n := by ring
  calc i * n / m + 1 = (i * n + m) / m := (Nat.add_div_right _ hm).symm
    _ ≤ (i + 1) * n / m := Nat.div_le_div_right h1

theorem sampleIndices_pairwise {n m : Nat} (h : m ≤ n) :
    (sampleIndices n m).Pairwise (· < ·) := by
  rcases Nat.eq_zero_or_pos m with hm | hm
  · subst hm; simp [sampleIndices]
  · have mono : StrictMono (fun i => i * n / m) := by
      apply strictMono_nat_of_lt_succ
      intro i
      exact Nat.lt_of_lt_of_le (Nat.lt_succ_self _) (sampleIndices_strict_step h hm i)
    exact (List.pairwise_map).2 ((List.pairwise_lt_range m).imp (fun hab => mono hab))

theorem sampleIndices_bound {n m : Nat} (hm : 0 < m) (h : m ≤ n) :
    ∀ i ∈ sampleIndices n m, i < n := by
  intro i hi
  obtain ⟨j, hj, rfl⟩ := List.mem_map.1 hi
  have hjm : j < m := List.mem_range.1 hj
  have hn : 0 < n := Nat.lt_of_lt_of_le hm h
  have : j * n < m * n := Nat.mul_lt_mul_of_lt_of_le hjm (Nat.le_refl n) hn
  exact (Nat.div_lt_iff_lt_mul hm).2 (by calc j * n < m * n := this
    _ = n * m := by ring)

theorem sampleIndices_zero_mem {n m : Nat} (hm : 0 < m) : 0 ∈ sampleIndices n m := by
  have : (0 : Nat) ∈ List.range m := List.mem_range.2 hm
  exact List.mem_map.2 ⟨0, this, by simp⟩

/- ### Equivalence of the two per-camera capping formulations -/

theorem enumFrom_filter_map_snd {α : Type} [Inhabited α] (q : Nat → Bool) :
    ∀ (l : List α) (k : Nat),
      ((List.enumFrom k l).filter (fun p => q p.1)).map Prod.snd
        = ((List.range l.length).filter (fun i => q (k + i))).map
            (fun i => l.getD i default)
  | [], _ => by simp
  | a :: l, k => by
      have ih := enumFrom_filter_map_snd q l (k + 1)
      have hp : ((fun i => q (k + i)) ∘ Nat.succ) = (fun i => q ((k + 1) + i)) := by
        funext i
        show q (k + (i + 1)) = q ((k + 1) + i)
        congr 1
        omega
      have hfun : ((fun i => (a :: l).getD i default) ∘ Nat.succ)
          = (fun i => l.getD i default) := by
        funext i
        simp [Function.comp, List.getD_cons_succ]
      rw [List.length_cons, List.range_succ_eq_map]
      simp only [List.enumFrom_cons, List.filter_cons, List.filter_map]
      by_cases hq : q k
      · simp only [hq, Nat.add_zero, if_pos, List.map_cons, List.getD_cons_zero]
        rw [hp, List.map_map, hfun, ih]
      · simp only [hq, Nat.add_zero, if_neg, Bool.false_eq_true, not_false_iff]
        rw [hp, List.map_map, hfun, ih]

theorem range_filter_mem_eq (S : List Nat) (n : Nat)
    (hS : S.Pairwise (· < ·)) (hb : ∀ i ∈ S, i < n) :
    (List.range n).filter (fun i => decide (i ∈ S)) = S := by
  have hnodupS : S.Nodup := hS.imp (fun h => Nat.ne_of_lt h)
  have hnodupL : ((List.range n).filter (fun i => decide (i ∈ S))).Nodup :=
    (List.nodup_range n).filter _
  have hmem : ∀ a, a ∈ (List.range n).filter (fun i => decide (i ∈ S)) ↔ a ∈ S := by
    intro a
    simp only [List.mem_filter, List.mem_range, decide_eq_true_eq]
    exact ⟨fun h => h.2, fun h => ⟨hb a h, h⟩⟩
  have hperm : List.Perm ((List.range n).filter (fun i => decide (i ∈ S))) S :=
    (List.perm_ext_iff_of_nodup hnodupL hnodupS).2 hmem
  have hs1 : ((List.range n).filter (fun i => decide (i ∈ S))).Sorted (· ≤ ·) :=
    (((List.pairwise_lt_range n).filter _).imp (fun h => Nat.le_of_lt h))
  have hs2 : S.Sorted (· ≤ ·) := hS.imp (fun h => Nat.le_of_lt h)
  exact List.eq_of_perm_of_sorted hperm hs1 hs2

theorem capCamera4d_eq_capFrames {α : Type} [Inhabited α] (l : List α) (m : Nat) :
    capCamera4d l m = capFrames l m := by
  unfold capCamera4d capFrames
  by_cases h : l.length > m
  · rw [if_pos h, if_pos h]
    rcases Nat.eq_zero_or_pos m with hm | hm
    · subst hm
      simp [sampleFrames, sampleIndices]
    · have hb : ∀ i ∈ sampleIndices l.length m, i < l.length :=
        sampleIndices_bound hm (Nat.le_of_lt h)
      have hS : (sampleIndices l.length m).Pairwise (· < ·) :=
        sampleIndices_pairwise (Nat.le_of_lt h)
      have := enumFrom_filter_map_snd (fun i => decide (i ∈ sampleIndices l.length m)) l 0
      rw [show List.enum l = List.enumFrom 0 l from rfl, this]
      simp only [Nat.zero_add]
      rw [range_filter_mem_eq _ _ hS hb]
      rfl
  · rw [if_neg h, if_neg h]

/- ### Observable events and result envelopes -/

/-- Observable orchestration events of a job run, in call order:
progress reports (`send_progress`), reconstruction/training engine
invocations (subprocess runs), artifact uploads (`supabase.storage...
upload`), the scratch-area cleanup (`shutil.rmtree` in `finally`), and the
completion callback POST. -/
inductive Event where
  | progress (stage : String) (pct : Nat) (msg : String)
  | invoke (engine : String) (db : String) (img : String)
  | upload (key : String)
  | cleanup
  | callback
  deriving DecidableEq

/-- The `result` dict built by both workers: `{success, production_id,
experience_id, outputs, error}` (plus `motion_enabled` in the 4D worker).
`outputs` maps output names to storage locations. -/
structure ResultEnvelope where
  success : Bool
  production_id : String
  experience_id : String
  outputs : Option (List (String × String))
  error : Option String
  motion_enabled : Option Bool
  deriving DecidableEq

/-- Outcome of the COLMAP mapper fallback run (modal_worker.py lines
401-418): normal exit, `CalledProcessError` with an exit code, or
`TimeoutExpired` after the 3-hour limit. -/
inductive MapperOutcome where
  | ok
  | fail (code : Int)
  | timeout
  deriving DecidableEq

/-- `database_path = colmap_dir / "database.db"`. -/
def dbPath : String := "colmap/database.db"

/-- `colmap_images = colmap_dir / "images"`. -/
def imgPath : String := "colmap/images"

/-- Environment of one static job run: the job's inputs plus the outcomes
of every external effect the orchestration reacts to.  A `none` error
field means the corresponding loop of downloads / ffmpeg runs completed;
`some msg` is the message of the exception the first failing call raised. -/
structure StaticEnv where
  production_id : String
  experience_id : String
  callback_url : String
  numVideos : Nat
  downloadError : Option String
  extractError : Option String
  framesPerCam : Nat → Nat
  maxFrames : Nat
  featureOk : Bool
  matchOk : Bool
  glomapExit : Int
  colmapMapper : MapperOutcome
  modelFound : Bool
  trainingStream : List (Nat × Nat)
  trainingExit : Int
  splatExists : Bool
  converterOk : Bool
  uploadError : Option String

/-- Result of the `try:` body of a worker: the events it emitted, the
error of the exception that aborted it (if any), the frame list placed in
the COLMAP image directory, and the `outputs` map (set only at the very
end of the body). -/
structure TryOutput where
  events : List Event
  error : Option String
  selectedFrames : List Frame
  outputs : Option (List (String × String))

/-- Progress events produced while streaming an engine's `Iteration X/Y`
lines (modal_worker.py lines 483-501, modal_worker_4d.py lines 494-510):
each parsed `(current, total)` pair yields
`send_progress(..., lo + int(current/total*100 * (w/100)), ...)`; a pair
with `total = 0` raises `ZeroDivisionError`, swallowed by the bare
`except: pass`, so it produces no event. -/
def trainingEvents (stage : String) (lo w : Nat) (stream : List (Nat × Nat)) : List Event :=
  stream.filterMap (fun p =>
    if p.2 = 0 then none
    else some (Event.progress stage (lo + w * p.1 / p.2)
      ("Training step " ++ toString p.1 ++ "/" ++ toString p.2)))

/-- The reconstruction fallback (modal_worker.py lines 352-418): run the
GLOMAP mapper; on nonzero exit (`CalledProcessError`, caught) report an
intermediate 55% checkpoint and run the COLMAP mapper on the same database
and image directory, whose failure or timeout aborts the job. -/
def reconStage (glomapExit : Int) (colmapMapper : MapperOutcome) :
    List Event × Option String :=
  let e0 := [Event.progress "glomap" 50 "Reconstructing 3D structure",
             Event.invoke "glomap_mapper" dbPath imgPath]
  if glomapExit = 0 then
    (e0, none)
  else
    let e1 := e0 ++ [Event.progress "glomap" 55 "Using COLMAP fallback reconstruction",
                     Event.invoke "colmap_mapper" dbPath imgPath]
    match colmapMapper with
    | MapperOutcome.ok => (e1, none)
    | MapperOutcome.fail c =>
        (e1, some ("Command colmap mapper returned non-zero exit status " ++ toString c))
    | MapperOutcome.timeout =>
        (e1, some "Reconstruction timed out after 3 hours - try reducing video count or duration")

/-- The static worker's `try:` body from the COLMAP stage on
(modal_worker.py lines 318-579), given the sampled frame list already
copied to the COLMAP image directory. -/
def staticAfterSampling (env : StaticEnv) (frames : List Frame) :
    List Event × Option String × Option (List (String × String)) :=
  let e3 := [Event.progress "colmap_features" 25 "Extracting image features",
             Event.invoke "colmap_feature_extractor" dbPath imgPath]
  if env.featureOk = false then
    (e3, some "Command colmap feature_extractor returned non-zero exit status", none)
  else
    let e4 := e3 ++ [Event.progress "colmap_matching" 35 "Matching features across images",
                     Event.invoke "colmap_sequential_matcher" dbPath ""]
    if env.matchOk = false then
      (e4, some "Command colmap sequential_matcher returned non-zero exit status", none)
    else
      let r := reconStage env.glomapExit env.colmapMapper
      let e5 := e4 ++ r.1
      match r.2 with
      | some msg => (e5, some msg, none)
      | none =>
        let e6 := e5 ++ [Event.progress "training" 70 "Training 3D Gaussian Splats"]
        if env.modelFound = false then
          (e6, some "COLMAP reconstruction failed - no valid model produced. Try with different camera angles or more overlap between videos.", none)
        else
          let e7 := e6 ++ [Event.invoke "opensplat" "" ""]
                       ++ trainingEvents "training" 70 15 env.trainingStream
          if env.trainingExit = 0 then
            if env.splatExists = false then
              (e7, some "OpenSplat did not produce output file", none)
            else
              let e8 := e7 ++ [Event.invoke "colmap_model_converter" "" ""]
              if env.converterOk = false then
                (e8, some "Command colmap model_converter returned non-zero exit status", none)
              else
                let e9 := e8 ++ [Event.progress "uploading" 90 "Uploading results"]
                match env.uploadError with
                | some msg => (e9, some msg, none)
                | none =>
                  let e10 := e9
                    ++ [Event.upload (env.production_id ++ "/scene.ply"),
                        Event.upload (env.production_id ++ "/cameras.json")]
                    ++ (if frames.isEmpty then []
                        else [Event.upload (env.production_id ++ "/thumbnail.jpg")])
                  let outs := [("plyUrl", env.production_id ++ "/scene.ply"),
                               ("camerasUrl", env.production_id ++ "/cameras.json")]
                    ++ (if frames.isEmpty then []
                        else [("thumbnailUrl", env.production_id ++ "/thumbnail.jpg")])
                  (e10, none, some outs)
          else
            (e7, some ("Gaussian Splatting training failed - error code "
                        ++ toString env.trainingExit), none)

/-- The whole `try:` body of `process_production` (modal_worker.py lines
259-581): download stage, extraction stage (with the `ZeroDivisionError`
Python raises when `total_extracted > max_frames = 0`), the merged-pool
sampling, and everything after. -/
def staticTry (env : StaticEnv) : TryOutput :=
  let e1 := [Event.progress "downloading" 5 "Downloading videos"]
  match env.downloadError with
  | some msg => ⟨e1, some msg, [], none⟩
  | none =>
    let e2 := e1 ++ [Event.progress "frame_extraction" 15 "Extracting frames from videos"]
    match env.extractError with
    | some msg => ⟨e2, some msg, [], none⟩
    | none =>
      let merged := (extractedCams env.numVideos env.framesPerCam).flatten
      if merged.length > env.maxFrames ∧ env.maxFrames = 0 then
        ⟨e2, some "division by zero", [], none⟩
      else
        let frames := capFrames merged env.maxFrames
        let rest := staticAfterSampling env frames
        ⟨e2 ++ rest.1, rest.2.1, frames, rest.2.2⟩

/-- The full run of one static job: events of the body and of the finally /
callback section. -/
structure RunOutput where
  events : List Event
  envelope : ResultEnvelope
  selectedFrames : List Frame

/-- `process_production` (modal_worker.py lines 214-608): run the body,
always run the cleanup finalizer, and POST the callback when a callback
URL was supplied (`if callback_url:`).  `result["success"]` is `True`
exactly when the body ran to completion. -/
def process_production (env : StaticEnv) : RunOutput :=
  let b := staticTry env
  { events := b.events ++ [Event.cleanup]
      ++ (if env.callback_url = "" then [] else [Event.callback])
    envelope := { success := b.error.isNone
                  production_id := env.production_id
                  experience_id := env.experience_id
                  outputs := b.outputs
                  error := b.error
                  motion_enabled := none }
    selectedFrames := b.selectedFrames }

/- ### The 4D (motion) worker model -/

/-- Zero-pad a frame number to five digits (`f"frame_{i:05d}"`). -/
def pad5 (n : Nat) : String :=
  let s := toString n
  String.mk (List.replicate (5 - s.length) '0') ++ s

/-- Environment of one 4D job run, mirroring `StaticEnv` for
`process_production_4d`'s external effects: COLMAP runs, the 4DGaussians
training subprocess and its streamed `Iteration X/Y` lines, the per-frame
export step (whether `export_perframe_3DGS.py` exits normally, whether its
output directory exists, and how many `time_*.ply` files it produced), and
the upload loop. -/
structure Env4d where
  production_id : String
  experience_id : String
  callback_url : String
  numVideos : Nat
  downloadError : Option String
  extractError : Option String
  framesPerCam : Nat → Nat
  maxFrames : Nat
  featureOk : Bool
  matchOk : Bool
  mapperOk : Bool
  modelFound : Bool
  converterOk : Bool
  trainingStream : List (Nat × Nat)
  trainingExit : Int
  exportOk : Bool
  exportDirExists : Bool
  exportedCount : Nat
  uploadError : Option String

/-- The upload loop over the exported per-timestamp PLY files
(modal_worker_4d.py lines 560-575): upload `frames/frame_NNNNN.ply` for
each index, and every 10th index report a progress checkpoint
`90 + int(i / len * 8)`. -/
def uploadEvents4d (pid : String) (count : Nat) : List Event :=
  (List.range count).flatMap (fun i =>
    Event.upload (pid ++ "/frames/frame_" ++ pad5 i ++ ".ply") ::
    (if i % 10 = 0 then
      [Event.progress "uploading" (90 + 8 * i / count)
        ("Uploading frame " ++ toString (i + 1) ++ "/" ++ toString count)]
     else []))

/-- The export/upload tail of the 4D worker (modal_worker_4d.py lines
518-633): the per-frame export step (subprocess, output-directory check,
empty check), the upload loop, metadata, thumbnail and the
backwards-compatibility `scene.ply` copy of the first frame. -/
def exportUpload4d (env : Env4d) (thumb : Bool) :
    List Event × Option String × Option (List (String × String)) :=
  let e8 := [Event.progress "exporting" 85 "Exporting per-frame PLY files",
             Event.invoke "export_perframe_3DGS" "" ""]
  if env.exportOk = false then
    (e8, some "Command export_perframe_3DGS returned non-zero exit status", none)
  else if env.exportDirExists = false then
    (e8, some "Per-frame export failed - no output directory", none)
  else if env.exportedCount = 0 then
    (e8, some "Per-frame export produced no files", none)
  else
    let e9 := e8 ++ [Event.progress "uploading" 90 "Uploading results"]
    match env.uploadError with
    | some msg => (e9, some msg, none)
    | none =>
      let e10 := e9 ++ uploadEvents4d env.production_id env.exportedCount
        ++ [Event.upload (env.production_id ++ "/metadata.json")]
        ++ (if thumb then [Event.upload (env.production_id ++ "/thumbnail.jpg")]
            else [])
        ++ [Event.upload (env.production_id ++ "/scene.ply")]
      let outs := [("frameCount", toString env.exportedCount),
                   ("metadataUrl", env.production_id ++ "/metadata.json"),
                   ("plyUrl", env.production_id ++ "/scene.ply")]
        ++ (if thumb then [("thumbnailUrl", env.production_id ++ "/thumbnail.jpg")]
            else [])
      (e10, none, some outs)

/-- The 4D worker's `try:` body from the COLMAP stage on
(modal_worker_4d.py lines 323-635), given the per-camera-capped frames
already copied (with camera prefixes) into the COLMAP image directory
and whether the first camera directory contains a frame (the thumbnail
source).  The export/upload tail lives in `exportUpload4d`. -/
def afterExtract4d (env : Env4d) (selected : List Frame) (thumb : Bool) :
    List Event × Option String × Option (List (String × String)) :=
  let e3 := [Event.progress "colmap_features" 20 "Extracting image features",
             Event.invoke "colmap_feature_extractor" dbPath imgPath]
  if env.featureOk = false then
    (e3, some "COLMAP feature extraction failed", none)
  else
    let matcher := if selected.length > 500 then "colmap_exhaustive_matcher"
                   else "colmap_sequential_matcher"
    let e4 := e3 ++ [Event.progress "colmap_matching" 30 "Matching features",
                     Event.invoke matcher dbPath ""]
    if env.matchOk = false then
      (e4, some "COLMAP feature matching failed", none)
    else
      let e5 := e4 ++ [Event.progress "colmap_mapper" 40 "Reconstructing 3D structure",
                       Event.invoke "colmap_mapper" dbPath imgPath]
      if env.mapperOk = false then
        (e5, some "COLMAP sparse reconstruction failed", none)
      else if env.modelFound = false then
        (e5, some "COLMAP reconstruction failed - no valid model", none)
      else
        let e6 := e5 ++ [Event.invoke "colmap_model_converter" "" ""]
        if env.converterOk = false then
          (e6, some "Command colmap model_converter returned non-zero exit status", none)
        else
          let e7 := e6 ++ [Event.progress "training_4d" 50
                             "Training 4D Gaussian Splatting (this takes a while)",
                           Event.invoke "4dgs_train" "" ""]
                       ++ trainingEvents "training_4d" 50 30 env.trainingStream
          if env.trainingExit = 0 then
            let r := exportUpload4d env thumb
            (e7 ++ r.1, r.2.1, r.2.2)
          else
            (e7, some ("4DGaussians training failed with code "
                        ++ toString env.trainingExit), none)

/-- The whole `try:` body of `process_production_4d` (modal_worker_4d.py
lines 276-635): download stage, per-camera extraction with the per-camera
cap (and Python's `ZeroDivisionError` when some camera has frames and
`max_frames = 0`), then everything after. -/
def try4d (env : Env4d) : TryOutput :=
  let e1 := [Event.progress "downloading" 5 "Downloading videos"]
  match env.downloadError with
  | some msg => ⟨e1, some msg, [], none⟩
  | none =>
    let e2 := e1 ++ [Event.progress "frame_extraction" 10 "Extracting frames with timestamps"]
    match env.extractError with
    | some msg => ⟨e2, some msg, [], none⟩
    | none =>
      if env.maxFrames = 0 ∧ (List.range env.numVideos).any (fun c => 0 < env.framesPerCam c) then
        ⟨e2, some "division by zero", [], none⟩
      else
        let capped := (extractedCams env.numVideos env.framesPerCam).map
          (fun c => capCamera4d c env.maxFrames)
        let selected := capped.flatten
        let rest := afterExtract4d env selected (!(capped.headD []).isEmpty)
        ⟨e2 ++ rest.1, rest.2.1, selected, rest.2.2⟩

/-- `process_production_4d` (modal_worker_4d.py lines 218-663): run the
body, always run the cleanup finalizer, and when a callback URL was
supplied send a final `complete`/100 progress report and POST the
callback. -/
def process_production_4d (env : Env4d) : RunOutput :=
  let b := try4d env
  { events := b.events ++ [Event.cleanup]
      ++ (if env.callback_url = "" then []
          else [Event.progress "complete" 100 "Processing complete", Event.callback])
    envelope := { success := b.error.isNone
                  production_id := env.production_id
                  experience_id := env.experience_id
                  outputs := b.outputs
                  error := b.error
                  motion_enabled := some true }
    selectedFrames := b.selectedFrames }

/- ### The progress reporter (send_progress) -/

/-- Outcome of one POST on the notification transport: an HTTP response
with a status code, or a raised exception (network error, timeout). -/
inductive TransportOutcome where
  | response (status : Nat)
  | netError (msg : String)
  deriving DecidableEq

/-- The bare transport call `requests.post(...)`: it either returns a
response or raises. -/
def postProgress (t : TransportOutcome) : Except String Nat :=
  match t with
  | TransportOutcome.response s => Except.ok s
  | TransportOutcome.netError m => Except.error m

/-- `send_progress` (modal_worker.py lines 184-205, modal_worker_4d.py
lines 92-112): POST the progress body inside `try:`; any exception is
caught by `except Exception as e:` and logged.  The value is the list of
log lines the function prints; an `Except.error` result would model an
exception propagating to the caller, which the source structure makes
impossible. -/
def send_progress (production_id stage : String) (pct : Nat) (t : TransportOutcome) :
    Except String (List String) :=
  match postProgress t with
  | Except.ok s =>
      Except.ok (["[" ++ production_id ++ "] Progress update: " ++ stage ++ " "
        ++ toString pct ++ "% - " ++ toString s])
  | Except.error e =>
      Except.ok (["[" ++ production_id ++ "] Progress update failed: " ++ e])

/- ### Progress percentage sequences -/

/-- The percentages handed to the progress reporter, in call order. -/
def progressPcts (l : List Event) : List Nat :=
  l.filterMap (fun e => match e with
    | Event.progress _ p _ => some p
    | _ => none)

/-- The percentages of a training progress window: `lo + int(pct * w/100)`
for each streamed `(current, total)` pair (pairs with `total = 0` are
swallowed). -/
def trainPcts (lo w : Nat) (stream : List (Nat × Nat)) : List Nat :=
  stream.filterMap (fun p =>
    if p.2 = 0 then none else some (lo + w * p.1 / p.2))

/-- The checkpoint percentages of the 4D upload loop. -/
def uploadPcts (count : Nat) : List Nat :=
  ((List.range count).filter (fun i => i % 10 = 0)).map (fun i => 90 + 8 * i / count)

/-- A well-formed engine progress stream: every streamed `Iteration X/Y`
pair has `0 < Y` and `X ≤ Y`, and successive pairs report non-decreasing
fractions (the engines emit iteration counters in increasing order). -/
def StreamOK (stream : List (Nat × Nat)) : Prop :=
  (∀ p ∈ stream, 0 < p.2 ∧ p.1 ≤ p.2)
  ∧ stream.Chain' (fun p q => p.1 * q.2 ≤ q.1 * p.2)

theorem progressPcts_append (l₁ l₂ : List Event) :
    progressPcts (l₁ ++ l₂) = progressPcts l₁ ++ progressPcts l₂ := by
  simp [progressPcts]

theorem progressPcts_nil : progressPcts [] = [] := rfl

theorem progressPcts_cons (e : Event) (rest : List Event) :
    progressPcts (e :: rest)
      = (match e with
         | Event.progress _ p _ => [p]
         | _ => []) ++ progressPcts rest := by
  cases e <;> rfl

theorem progressPcts_trainingEvents (stage : String) (lo w : Nat)
    (stream : List (Nat × Nat)) :
    progressPcts (trainingEvents stage lo w stream) = trainPcts lo w stream := by
  induction stream with
  | nil => rfl
  | cons p s ih =>
      by_cases hp : p.2 = 0
      · simp [trainingEvents, trainPcts, hp, progressPcts] at ih ⊢
        exact ih
      · simp [trainingEvents, trainPcts, hp, progressPcts] at ih ⊢
        exact ih

theorem progressPcts_uploadEvents4d (pid : String) (count : Nat) :
    progressPcts (uploadEvents4d pid count) = uploadPcts count := by
  unfold uploadEvents4d uploadPcts
  induction List.range count with
  | nil => rfl
  | cons i l ih =>
      by_cases hi : i % 10 = 0
      · simp only [List.flatMap_cons, List.filter_cons, progressPcts,
          List.filterMap_append] at ih ⊢
        simp [hi, ih]
      · simp only [List.flatMap_cons, List.filter_cons, progressPcts,
          List.filterMap_append] at ih ⊢
        simp [hi, ih]

theorem div_le_div_of_frac_le {w a b c d : Nat} (hb : 0 < b) (hd : 0 < d)
    (h : a * d ≤ c * b) : w * a / b ≤ w * c / d := by
  apply (Nat.le_div_iff_mul_le hd).2
  have h1 : (w * a / b) * b ≤ w * a := Nat.div_mul_le_self _ _
  have h2 : (w * a / b) * d * b ≤ w * c * b := by
    calc (w * a / b) * d * b = (w * a / b) * b * d := by ring
    _ ≤ (w * a) * d := Nat.mul_le_mul_right _ h1
    _ = w * (a * d) := by ring
    _ ≤ w * (c * b) := Nat.mul_le_mul_left _ h
    _ = w * c * b := by ring
  exact Nat.le_of_mul_le_mul_right h2 hb

theorem trainPcts_eq_map (lo w : Nat) (stream : List (Nat × Nat))
    (h : ∀ p ∈ stream, 0 < p.2) :
    trainPcts lo w stream = stream.map (fun p => lo + w * p.1 / p.2) := by
  induction stream with
  | nil => rfl
  | cons p s ih =>
      have hp : p.2 ≠ 0 := Nat.pos_iff_ne_zero.1 (h p (List.mem_cons_self p s))
      have ih' := ih (fun q hq => h q (List.mem_cons_of_mem p hq))
      simp only [trainPcts] at ih' ⊢
      simp [hp, ih']

theorem trainPcts_chain (lo w : Nat) :
    ∀ (stream : List (Nat × Nat)), (∀ p ∈ stream, 0 < p.2) →
      stream.Chain' (fun p q => p.1 * q.2 ≤ q.1 * p.2) →
      (trainPcts lo w stream).Chain' (· ≤ ·)
  | [], _, _ => by simp [trainPcts]
  | [p], hpos, _ => by
      have hp : p.2 ≠ 0 := Nat.pos_iff_ne_zero.1 (hpos p (List.mem_cons_self p []))
      simp [trainPcts, hp]
  | p :: q :: s, hpos, hch => by
      have hp : p.2 ≠ 0 := Nat.pos_iff_ne_zero.1 (hpos p (by simp))
      have hq : q.2 ≠ 0 := Nat.pos_iff_ne_zero.1 (hpos q (by simp))
      rw [List.chain'_cons] at hch
      have tail := trainPcts_chain lo w (q :: s)
        (fun r hr => hpos r (List.mem_cons_of_mem p hr)) hch.2
      have step : lo + w * p.1 / p.2 ≤ lo + w * q.1 / q.2 :=
        Nat.add_le_add_left
          (div_le_div_of_frac_le (Nat.pos_of_ne_zero hp) (Nat.pos_of_ne_zero hq) hch.1) lo
      have : trainPcts lo w (p :: q :: s)
          = (lo + w * p.1 / p.2) :: (lo + w * q.1 / q.2) :: trainPcts lo w s := by
        simp [trainPcts, hp, hq]
      rw [this]
      rw [List.chain'_cons]
      refine ⟨step, ?_⟩
      have : trainPcts lo w (q :: s) = (lo + w * q.1 / q.2) :: trainPcts lo w s := by
        simp [trainPcts, hq]
      rw [this] at tail
      exact tail

theorem trainPcts_sorted (lo w : Nat) (stream : List (Nat × Nat)) (h : StreamOK stream) :
    (trainPcts lo w stream).Pairwise (· ≤ ·) :=
  List.chain'_iff_pairwise.1 (trainPcts_chain lo w stream (fun p hp => (h.1 p hp).1) h.2)

theorem trainPcts_mem_bounds (lo w : Nat) (stream : List (Nat × Nat))
    (h : ∀ p ∈ stream, 0 < p.2 ∧ p.1 ≤ p.2) :
    ∀ x ∈ trainPcts lo w stream, lo ≤ x ∧ x ≤ lo + w := by
  intro x hx
  simp only [trainPcts, List.mem_filterMap] at hx
  obtain ⟨p, hp, hval⟩ := hx
  have hp2 : p.2 ≠ 0 := Nat.pos_iff_ne_zero.1 (h p hp).1
  rw [if_neg hp2] at hval
  have hx' : x = lo + w * p.1 / p.2 := (Option.some_injective _ hval).symm
  subst hx'
  constructor
  · exact Nat.le_add_right _ _
  · have : w * p.1 / p.2 ≤ w := by
      have h1 : w * p.1 ≤ w * p.2 := Nat.mul_le_mul_left _ (h p hp).2
      calc w * p.1 / p.2 ≤ w * p.2 / p.2 := Nat.div_le_div_right h1
        _ = w := Nat.mul_div_cancel w (h p hp).1
    exact Nat.add_le_add_left this lo

theorem uploadPcts_sorted (count : Nat) : (uploadPcts count).Pairwise (· ≤ ·) := by
  unfold uploadPcts
  apply (List.pairwise_map).2
  apply List.Pairwise.imp ?_ ((List.pairwise_lt_range count).filter _)
  intro a b hab
  exact Nat.add_le_add_left (Nat.div_le_div_right (Nat.mul_le_mul_left 8 (Nat.le_of_lt hab))) 90

theorem uploadPcts_mem_bounds (count : Nat) :
    ∀ x ∈ uploadPcts count, 90 ≤ x ∧ x ≤ 98 := by
  intro x hx
  simp only [uploadPcts, List.mem_map, List.mem_filter, List.mem_range] at hx
  obtain ⟨i, ⟨hi, _⟩, rfl⟩ := hx
  have hc : 0 < count := Nat.pos_of_ne_zero (by intro h; subst h; exact Nat.not_lt_zero i hi)
  refine ⟨Nat.le_add_right _ _, ?_⟩
  have : 8 * i / count ≤ 8 := by
    have h1 : 8 * i ≤ 8 * count := Nat.mul_le_mul_left _ (Nat.le_of_lt hi)
    calc 8 * i / count ≤ 8 * count / count := Nat.div_le_div_right h1
      _ = 8 := Nat.mul_div_cancel 8 hc
  omega

/- ### Shape of the static worker's progress sequence -/

theorem reconStage_events_pcts (g : Int) (cm : MapperOutcome) :
    progressPcts (reconStage g cm).1 = [50] ++ (if g = 0 then [] else [55]) := by
  unfold reconStage
  by_cases hg : g = 0
  · simp [hg, progressPcts]
  · cases cm <;> simp [hg, progressPcts]

/-- The progress percentages of a static run that goes all the way:
every run's percentage sequence is a prefix of this list. -/
def staticFullPcts (g : Int) (stream : List (Nat × Nat)) : List Nat :=
  [5, 15] ++ ([25, 35] ++ ([50] ++ (if g = 0 then [] else [55])) ++ [70]
    ++ trainPcts 70 15 stream ++ [90])

theorem staticAfter_pcts_prefix (env : StaticEnv) (frames : List Frame) :
    ∃ t, progressPcts (staticAfterSampling env frames).1 ++ t
        = [25, 35] ++ ([50] ++ (if env.glomapExit = 0 then [] else [55])) ++ [70]
          ++ trainPcts 70 15 env.trainingStream ++ [90] := by
  simp only [staticAfterSampling]
  split
  · exact ⟨[35] ++ ([50] ++ (if env.glomapExit = 0 then [] else [55])) ++ [70]
      ++ trainPcts 70 15 env.trainingStream ++ [90],
      by simp [progressPcts_append, progressPcts_cons, progressPcts_nil]⟩
  · split
    · exact ⟨([50] ++ (if env.glomapExit = 0 then [] else [55])) ++ [70]
        ++ trainPcts 70 15 env.trainingStream ++ [90],
        by simp [progressPcts_append, progressPcts_cons, progressPcts_nil]⟩
    · split
      · exact ⟨[70] ++ trainPcts 70 15 env.trainingStream ++ [90],
          by simp [progressPcts_append, reconStage_events_pcts, progressPcts_cons, progressPcts_nil]⟩
      · split
        · exact ⟨trainPcts 70 15 env.trainingStream ++ [90],
            by simp [progressPcts_append, reconStage_events_pcts, progressPcts_cons, progressPcts_nil]⟩
        · split
          · split
            · exact ⟨[90], by simp [progressPcts_append, reconStage_events_pcts,
                progressPcts_trainingEvents, progressPcts_cons, progressPcts_nil]⟩
            · split
              · exact ⟨[90], by simp [progressPcts_append, reconStage_events_pcts,
                  progressPcts_trainingEvents, progressPcts_cons, progressPcts_nil]⟩
              · split
                · exact ⟨[], by simp [progressPcts_append, reconStage_events_pcts,
                    progressPcts_trainingEvents, progressPcts_cons, progressPcts_nil]⟩
                · refine ⟨[], ?_⟩
                  split <;> simp [progressPcts_append, reconStage_events_pcts,
                    progressPcts_trainingEvents, progressPcts_cons, progressPcts_nil]
          · exact ⟨[90], by simp [progressPcts_append, reconStage_events_pcts,
              progressPcts_trainingEvents, progressPcts_cons, progressPcts_nil]⟩

theorem staticTry_pcts_prefix (env : StaticEnv) :
    ∃ t, progressPcts (staticTry env).events ++ t
        = staticFullPcts env.glomapExit env.trainingStream := by
  simp only [staticTry, staticFullPcts]
  split
  · exact ⟨[15] ++ ([25, 35] ++ ([50] ++ (if env.glomapExit = 0 then [] else [55]))
      ++ [70] ++ trainPcts 70 15 env.trainingStream ++ [90]),
      by simp [progressPcts_append, progressPcts_cons, progressPcts_nil]⟩
  · split
    · exact ⟨[25, 35] ++ ([50] ++ (if env.glomapExit = 0 then [] else [55]))
        ++ [70] ++ trainPcts 70 15 env.trainingStream ++ [90],
        by simp [progressPcts_append, progressPcts_cons, progressPcts_nil]⟩
    · split
      · exact ⟨[25, 35] ++ ([50] ++ (if env.glomapExit = 0 then [] else [55]))
          ++ [70] ++ trainPcts 70 15 env.trainingStream ++ [90],
          by simp [progressPcts_append, progressPcts_cons, progressPcts_nil]⟩
      · obtain ⟨t, ht⟩ := staticAfter_pcts_prefix env
          (capFrames (extractedCams env.numVideos env.framesPerCam).flatten env.maxFrames)
        refine ⟨t, ?_⟩
        simp only [progressPcts_append, List.append_assoc]
        simp only [List.append_assoc] at ht
        rw [ht]
        simp [progressPcts_cons, progressPcts_nil]

/- ### Shape of the 4D worker's progress sequence -/

/-- The progress percentages of a 4D run body that goes all the way:
every run's body percentage sequence is a prefix of this list. -/
def fullBody4dPcts (stream : List (Nat × Nat)) (count : Nat) : List Nat :=
  [5, 10] ++ ([20, 30, 40, 50] ++ trainPcts 50 30 stream ++ [85, 90] ++ uploadPcts count)

theorem exportUpload4d_pcts_prefix (env : Env4d) (thumb : Bool) :
    ∃ t, progressPcts (exportUpload4d env thumb).1 ++ t
        = [85, 90] ++ uploadPcts env.exportedCount := by
  simp only [exportUpload4d]
  split
  · exact ⟨[90] ++ uploadPcts env.exportedCount,
      by simp [progressPcts_append, progressPcts_cons, progressPcts_nil]⟩
  · split
    · exact ⟨[90] ++ uploadPcts env.exportedCount,
        by simp [progressPcts_append, progressPcts_cons, progressPcts_nil]⟩
    · split
      · exact ⟨[90] ++ uploadPcts env.exportedCount,
          by simp [progressPcts_append, progressPcts_cons, progressPcts_nil]⟩
      · split
        · exact ⟨uploadPcts env.exportedCount,
            by simp [progressPcts_append, progressPcts_cons, progressPcts_nil]⟩
        · refine ⟨[], ?_⟩
          split <;>
            simp [progressPcts_append, progressPcts_cons, progressPcts_nil,
              progressPcts_uploadEvents4d]

theorem after4d_pcts_prefix (env : Env4d) (selected : List Frame) (thumb : Bool) :
    ∃ t, progressPcts (afterExtract4d env selected thumb).1 ++ t
        = [20, 30, 40, 50] ++ trainPcts 50 30 env.trainingStream
          ++ [85, 90] ++ uploadPcts env.exportedCount := by
  simp only [afterExtract4d]
  split
  · exact ⟨[30, 40, 50] ++ trainPcts 50 30 env.trainingStream ++ [85, 90]
      ++ uploadPcts env.exportedCount,
      by simp [progressPcts_append, progressPcts_cons, progressPcts_nil]⟩
  · split
    · exact ⟨[40, 50] ++ trainPcts 50 30 env.trainingStream ++ [85, 90]
        ++ uploadPcts env.exportedCount,
        by simp [progressPcts_append, progressPcts_cons, progressPcts_nil]⟩
    · split
      · exact ⟨[50] ++ trainPcts 50 30 env.trainingStream ++ [85, 90]
          ++ uploadPcts env.exportedCount,
          by simp [progressPcts_append, progressPcts_cons, progressPcts_nil]⟩
      · split
        · exact ⟨[50] ++ trainPcts 50 30 env.trainingStream ++ [85, 90]
            ++ uploadPcts env.exportedCount,
            by simp [progressPcts_append, progressPcts_cons, progressPcts_nil]⟩
        · split
          · exact ⟨[50] ++ trainPcts 50 30 env.trainingStream ++ [85, 90]
              ++ uploadPcts env.exportedCount,
              by simp [progressPcts_append, progressPcts_cons, progressPcts_nil]⟩
          · split
            · obtain ⟨t, ht⟩ := exportUpload4d_pcts_prefix env thumb
              refine ⟨t, ?_⟩
              simp only [progressPcts_append, progressPcts_trainingEvents,
                List.append_assoc]
              rw [ht]
              simp [progressPcts_cons, progressPcts_nil]
            · exact ⟨[85, 90] ++ uploadPcts env.exportedCount,
                by simp [progressPcts_append, progressPcts_cons, progressPcts_nil,
                  progressPcts_trainingEvents]⟩

theorem try4d_pcts_prefix (env : Env4d) :
    ∃ t, progressPcts (try4d env).events ++ t
        = fullBody4dPcts env.trainingStream env.exportedCount := by
  simp only [try4d, fullBody4dPcts]
  split
  · exact ⟨[10] ++ ([20, 30, 40, 50] ++ trainPcts 50 30 env.trainingStream
      ++ [85, 90] ++ uploadPcts env.exportedCount),
      by simp [progressPcts_append, progressPcts_cons, progressPcts_nil]⟩
  · split
    · exact ⟨[20, 30, 40, 50] ++ trainPcts 50 30 env.trainingStream
        ++ [85, 90] ++ uploadPcts env.exportedCount,
        by simp [progressPcts_append, progressPcts_cons, progressPcts_nil]⟩
    · split
      · exact ⟨[20, 30, 40, 50] ++ trainPcts 50 30 env.trainingStream
          ++ [85, 90] ++ uploadPcts env.exportedCount,
          by simp [progressPcts_append, progressPcts_cons, progressPcts_nil]⟩
      · obtain ⟨t, ht⟩ := after4d_pcts_prefix env
          (((extractedCams env.numVideos env.framesPerCam).map
            (fun c => capCamera4d c env.maxFrames)).flatten)
          (!(((extractedCams env.numVideos env.framesPerCam).map
            (fun c => capCamera4d c env.maxFrames)).headD []).isEmpty)
        refine ⟨t, ?_⟩
        simp only [progressPcts_append, List.append_assoc]
        simp only [List.append_assoc] at ht
        rw [ht]
        simp [progressPcts_cons, progressPcts_nil]

theorem pcts_process_production (env : StaticEnv) :
    progressPcts (process_production env).events = progressPcts (staticTry env).events := by
  simp only [process_production]
  rw [progressPcts_append, progressPcts_append]
  by_cases hcb : env.callback_url = "" <;>
    simp [hcb, progressPcts_cons, progressPcts_nil]

theorem pcts_process_production_4d (env : Env4d) :
    progressPcts (process_production_4d env).events
      = progressPcts (try4d env).events
        ++ (if env.callback_url = "" then [] else [100]) := by
  simp only [process_production_4d]
  rw [progressPcts_append, progressPcts_append]
  by_cases hcb : env.callback_url = "" <;>
    simp [hcb, progressPcts_cons, progressPcts_nil]

/- ### Monotonicity of the full progress sequences -/

theorem staticFullPcts_chain (g : Int) (stream : List (Nat × Nat)) (h : StreamOK stream) :
    (staticFullPcts g stream).Chain' (· ≤ ·) := by
  have hT : (trainPcts 70 15 stream).Chain' (· ≤ ·) :=
    trainPcts_chain 70 15 stream (fun p hp => (h.1 p hp).1) h.2
  have hTb := trainPcts_mem_bounds 70 15 stream h.1
  have h1 : ((trainPcts 70 15 stream) ++ [90]).Chain' (· ≤ ·) := by
    apply hT.append (List.chain'_singleton 90)
    intro x hx y hy
    have hxm : x ∈ trainPcts 70 15 stream := List.mem_of_mem_getLast? hx
    have hy' : y = 90 := by simpa using List.mem_of_mem_head? hy
    subst hy'
    have := (hTb x hxm).2
    omega
  have hhead : ∀ y ∈ ((trainPcts 70 15 stream) ++ [90]).head?, (70 : Nat) ≤ y := by
    intro y hy
    rcases List.mem_append.1 (List.mem_of_mem_head? hy) with hm | hm
    · exact (hTb y hm).1
    · simp at hm
      omega
  by_cases hg : g = 0
  · simp only [staticFullPcts, hg, if_pos, List.append_assoc, List.cons_append,
      List.nil_append, List.singleton_append]
    refine List.chain'_cons.2 ⟨by norm_num, ?_⟩
    refine List.chain'_cons.2 ⟨by norm_num, ?_⟩
    refine List.chain'_cons.2 ⟨by norm_num, ?_⟩
    refine List.chain'_cons.2 ⟨by norm_num, ?_⟩
    refine List.chain'_cons.2 ⟨by norm_num, ?_⟩
    exact List.chain'_cons'.2 ⟨hhead, h1⟩
  · simp only [staticFullPcts, hg, if_neg, List.append_assoc, List.cons_append,
      List.nil_append, List.singleton_append, ite_false]
    refine List.chain'_cons.2 ⟨by norm_num, ?_⟩
    refine List.chain'_cons.2 ⟨by norm_num, ?_⟩
    refine List.chain'_cons.2 ⟨by norm_num, ?_⟩
    refine List.chain'_cons.2 ⟨by norm_num, ?_⟩
    refine List.chain'_cons.2 ⟨by norm_num, ?_⟩
    refine List.chain'_cons.2 ⟨by norm_num, ?_⟩
    exact List.chain'_cons'.2 ⟨hhead, h1⟩

theorem fullBody4dPcts_chain (stream : List (Nat × Nat)) (count : Nat)
    (h : StreamOK stream) :
    (fullBody4dPcts stream count).Chain' (· ≤ ·) := by
  have hT : (trainPcts 50 30 stream).Chain' (· ≤ ·) :=
    trainPcts_chain 50 30 stream (fun p hp => (h.1 p hp).1) h.2
  have hTb := trainPcts_mem_bounds 50 30 stream h.1
  have hU : (uploadPcts count).Chain' (· ≤ ·) := (uploadPcts_sorted count).chain'
  have hUb := uploadPcts_mem_bounds count
  have h85 : ((85 : Nat) :: 90 :: uploadPcts count).Chain' (· ≤ ·) := by
    refine List.chain'_cons.2 ⟨by norm_num, ?_⟩
    refine List.chain'_cons'.2 ⟨?_, hU⟩
    intro y hy
    exact (hUb y (List.mem_of_mem_head? hy)).1
  have h2 : ((trainPcts 50 30 stream) ++ (85 :: 90 :: uploadPcts count)).Chain' (· ≤ ·) := by
    apply hT.append h85
    intro x hx y hy
    have hxm : x ∈ trainPcts 50 30 stream := List.mem_of_mem_getLast? hx
    have hy2 : y = 85 := by
      have h85y := hy
      simp at h85y
      omega
    subst hy2
    have := (hTb x hxm).2
    omega
  have hhead : ∀ y ∈ ((trainPcts 50 30 stream) ++ (85 :: 90 :: uploadPcts count)).head?,
      (50 : Nat) ≤ y := by
    intro y hy
    rcases List.mem_append.1 (List.mem_of_mem_head? hy) with hm | hm
    · exact (hTb y hm).1
    · rcases List.mem_cons.1 hm with rfl | hm'
      · omega
      · rcases List.mem_cons.1 hm' with rfl | hm''
        · omega
        · have := (hUb y hm'').1
          omega
  simp only [fullBody4dPcts, List.append_assoc, List.cons_append, List.nil_append,
    List.singleton_append]
  refine List.chain'_cons.2 ⟨by norm_num, ?_⟩
  refine List.chain'_cons.2 ⟨by norm_num, ?_⟩
  refine List.chain'_cons.2 ⟨by norm_num, ?_⟩
  refine List.chain'_cons.2 ⟨by norm_num, ?_⟩
  refine List.chain'_cons.2 ⟨by norm_num, ?_⟩
  exact List.chain'_cons'.2 ⟨hhead, h2⟩

theorem fullBody4dPcts_le_100 (stream : List (Nat × Nat)) (count : Nat)
    (h : StreamOK stream) :
    ∀ x ∈ fullBody4dPcts stream count, x ≤ 100 := by
  intro x hx
  have hTb := trainPcts_mem_bounds 50 30 stream h.1
  have hUb := uploadPcts_mem_bounds count
  have hx' : x = 5 ∨ x = 10 ∨ x = 20 ∨ x = 30 ∨ x = 40 ∨ x = 50
      ∨ x ∈ trainPcts 50 30 stream ∨ x = 85 ∨ x = 90 ∨ x ∈ uploadPcts count := by
    simpa [fullBody4dPcts, List.mem_append, List.mem_cons, or_assoc] using hx
  rcases hx' with rfl | rfl | rfl | rfl | rfl | rfl | hm | rfl | rfl | hm
  any_goals omega
  · have := (hTb x hm).2
    omega
  · have := (hUb x hm).2
    omega

theorem static_run_pcts_sorted (env : StaticEnv) (h : StreamOK env.trainingStream) :
    (progressPcts (process_production env).events).Pairwise (· ≤ ·) := by
  obtain ⟨t, ht⟩ := staticTry_pcts_prefix env
  have hfull : (staticFullPcts env.glomapExit env.trainingStream).Pairwise (· ≤ ·) :=
    List.chain'_iff_pairwise.1 (staticFullPcts_chain env.glomapExit env.trainingStream h)
  rw [pcts_process_production]
  exact hfull.sublist (ht ▸ List.sublist_append_left _ t)

theorem fourD_run_pcts_sorted (env : Env4d) (h : StreamOK env.trainingStream) :
    (progressPcts (process_production_4d env).events).Pairwise (· ≤ ·) := by
  obtain ⟨t, ht⟩ := try4d_pcts_prefix env
  have hfull : (fullBody4dPcts env.trainingStream env.exportedCount).Pairwise (· ≤ ·) :=
    List.chain'_iff_pairwise.1
      (fullBody4dPcts_chain env.trainingStream env.exportedCount h)
  have hbody : (progressPcts (try4d env).events).Pairwise (· ≤ ·) :=
    hfull.sublist (ht ▸ List.sublist_append_left _ t)
  have hmem : ∀ a ∈ progressPcts (try4d env).events, a ≤ 100 := by
    intro a ha
    refine fullBody4dPcts_le_100 env.trainingStream env.exportedCount h a ?_
    rw [← ht]
    exact List.mem_append_left t ha
  rw [pcts_process_production_4d]
  by_cases hcb : env.callback_url = ""
  · simpa [hcb] using hbody
  · simp only [hcb, if_neg, ite_false]
    refine (List.pairwise_append).2 ⟨hbody, List.pairwise_singleton _ _, ?_⟩
    intro a ha b hb
    have hb' : b = 100 := by simpa using hb
    subst hb'
    exact hmem a ha

/- ### Trace observations -/

/-- Whether the trace contains any artifact upload. -/
def hasUpload (l : List Event) : Bool :=
  l.any (fun e => match e with
    | Event.upload _ => true
    | _ => false)

/-- Whether the trace contains a progress report for the given stage. -/
def hasStage (st : String) (l : List Event) : Bool :=
  l.any (fun e => match e with
    | Event.progress s _ _ => s == st
    | _ => false)

/-- Number of invocations of a given external engine in the trace. -/
def countInvocations (engine : String) (l : List Event) : Nat :=
  (l.filter (fun e => match e with
    | Event.invoke n _ _ => n == engine
    | _ => false)).length

/-- Whether an `Except` result is a normal return. -/
def exceptOk {ε α : Type} (r : Except ε α) : Bool :=
  match r with
  | Except.ok _ => true
  | Except.error _ => false

theorem hasUpload_append (l₁ l₂ : List Event) :
    hasUpload (l₁ ++ l₂) = (hasUpload l₁ || hasUpload l₂) := by
  simp [hasUpload]

theorem hasUpload_nil : hasUpload [] = false := rfl

theorem hasUpload_cons (e : Event) (rest : List Event) :
    hasUpload (e :: rest)
      = ((match e with
          | Event.upload _ => true
          | _ => false) || hasUpload rest) := by
  cases e <;> simp [hasUpload]

theorem hasUpload_trainingEvents (st : String) (lo w : Nat) (s : List (Nat × Nat)) :
    hasUpload (trainingEvents st lo w s) = false := by
  induction s with
  | nil => rfl
  | cons p s ih =>
      by_cases hp : p.2 = 0 <;> simp [trainingEvents, hasUpload, hp] at ih ⊢ <;> exact ih

theorem feature_invoke_mem_staticAfter (env : StaticEnv) (frames : List Frame) :
    Event.invoke "colmap_feature_extractor" dbPath imgPath
      ∈ (staticAfterSampling env frames).1 := by
  simp only [staticAfterSampling]
  split
  · simp
  · split
    · simp
    · split
      · simp
      · split
        · simp
        · split
          · split
            · simp
            · split
              · simp
              · split
                · simp
                · simp
          · simp

theorem hasStage_nil (st : String) : hasStage st [] = false := rfl

theorem hasStage_cons (st : String) (e : Event) (rest : List Event) :
    hasStage st (e :: rest)
      = ((match e with
          | Event.progress s _ _ => s == st
          | _ => false) || hasStage st rest) := by
  cases e <;> simp [hasStage]

theorem hasStage_append (st : String) (l₁ l₂ : List Event) :
    hasStage st (l₁ ++ l₂) = (hasStage st l₁ || hasStage st l₂) := by
  simp [hasStage]

theorem hasStage_trainingEvents (st' st : String) (lo w : Nat)
    (s : List (Nat × Nat)) (h : (st == st') = false) :
    hasStage st' (trainingEvents st lo w s) = false := by
  induction s with
  | nil => rfl
  | cons p s ih =>
      by_cases hp : p.2 = 0 <;> simp [trainingEvents, hasStage, hp, h] at ih ⊢ <;>
        exact ih

theorem append_left_ne_empty (a b : String) (h : a ≠ "") : a ++ b ≠ "" := by
  intro hab
  apply h
  have hd := congrArg String.data hab
  rw [String.data_append] at hd
  have ha : a.data = [] := (List.append_eq_nil.1 hd).1
  cases a
  simp only [String.data] at ha
  simp [ha]

theorem reconStage_not_uploading (g : Int) (cm : MapperOutcome) :
    hasStage "uploading" (reconStage g cm).1 = false
    ∧ hasUpload (reconStage g cm).1 = false := by
  by_cases hg : g = 0 <;> cases cm <;>
    simp [reconStage, hg, hasStage, hasUpload]

theorem reconStage_error_nonempty (g : Int) (cm : MapperOutcome) :
    ∀ msg, (reconStage g cm).2 = some msg → msg ≠ "" := by
  intro msg h
  by_cases hg : g = 0
  · simp [reconStage, hg] at h
  · cases cm with
    | ok => simp [reconStage, hg] at h
    | fail c =>
        simp [reconStage, hg] at h
        rw [← h]
        exact append_left_ne_empty _ _ (by decide)
    | timeout =>
        simp [reconStage, hg] at h
        rw [← h]
        decide

theorem staticAfter_error_nonempty (env : StaticEnv) (frames : List Frame)
    (hu : ∀ m, env.uploadError = some m → m ≠ "") :
    ∀ msg, (staticAfterSampling env frames).2.1 = some msg → msg ≠ "" := by
  intro msg
  simp only [staticAfterSampling]
  split
  · intro h
    simp at h
    rw [← h]
    decide
  · split
    · intro h
      simp at h
      rw [← h]
      decide
    · split
      · rename_i msg' heq
        intro h
        simp at h
        rw [← h]
        exact reconStage_error_nonempty env.glomapExit env.colmapMapper msg' heq
      · split
        · intro h
          simp at h
          rw [← h]
          decide
        · split
          · split
            · intro h
              simp at h
              rw [← h]
              decide
            · split
              · intro h
                simp at h
                rw [← h]
                decide
              · split
                · rename_i m' heq
                  intro h
                  simp at h
                  rw [← h]
                  exact hu m' heq
                · intro h
                  simp at h
          · intro h
            simp at h
            rw [← h]
            exact append_left_ne_empty _ _ (by decide)

theorem staticAfter_halt (env : StaticEnv) (frames : List Frame) :
    (staticAfterSampling env frames).2.1.isSome = true →
    (hasStage "uploading" (staticAfterSampling env frames).1 = false
      ∧ hasUpload (staticAfterSampling env frames).1 = false)
    ∨ (∃ m, env.uploadError = some m
        ∧ (staticAfterSampling env frames).2.1 = some m) := by
  simp only [staticAfterSampling]
  split
  · intro _
    left
    refine ⟨?_, ?_⟩ <;> simp [hasStage, hasUpload]
  · split
    · intro _
      left
      refine ⟨?_, ?_⟩ <;> simp [hasStage, hasUpload]
    · split
      · intro _
        left
        have hr := reconStage_not_uploading env.glomapExit env.colmapMapper
        refine ⟨?_, ?_⟩ <;>
          simp [hasStage_append, hasUpload_append, hasStage_cons, hasUpload_cons,
            hasStage_nil, hasUpload_nil, hr.1, hr.2]
      · split
        · intro _
          left
          have hr := reconStage_not_uploading env.glomapExit env.colmapMapper
          refine ⟨?_, ?_⟩ <;>
            simp [hasStage_append, hasUpload_append, hasStage_cons, hasUpload_cons,
              hasStage_nil, hasUpload_nil, hr.1, hr.2]
        · split
          · split
            · intro _
              left
              have hr := reconStage_not_uploading env.glomapExit env.colmapMapper
              have ht := hasStage_trainingEvents "uploading" "training" 70 15
                env.trainingStream (by decide)
              have ht' := hasUpload_trainingEvents "training" 70 15 env.trainingStream
              refine ⟨?_, ?_⟩ <;>
                simp [hasStage_append, hasUpload_append, hasStage_cons, hasUpload_cons,
                  hasStage_nil, hasUpload_nil, hr.1, hr.2, ht, ht']
            · split
              · intro _
                left
                have hr := reconStage_not_uploading env.glomapExit env.colmapMapper
                have ht := hasStage_trainingEvents "uploading" "training" 70 15
                  env.trainingStream (by decide)
                have ht' := hasUpload_trainingEvents "training" 70 15 env.trainingStream
                refine ⟨?_, ?_⟩ <;>
                  simp [hasStage_append, hasUpload_append, hasStage_cons, hasUpload_cons,
                    hasStage_nil, hasUpload_nil, hr.1, hr.2, ht, ht']
              · split
                · rename_i m' heq
                  intro _
                  right
                  exact ⟨m', heq, rfl⟩
                · intro herr
                  simp at herr
          · intro _
            left
            have hr := reconStage_not_uploading env.glomapExit env.colmapMapper
            have ht := hasStage_trainingEvents "uploading" "training" 70 15
              env.trainingStream (by decide)
            have ht' := hasUpload_trainingEvents "training" 70 15 env.trainingStream
            refine ⟨?_, ?_⟩ <;>
              simp [hasStage_append, hasUpload_append, hasStage_cons, hasUpload_cons,
                hasStage_nil, hasUpload_nil, hr.1, hr.2, ht, ht']

theorem staticTry_error_nonempty (env : StaticEnv)
    (hd : ∀ m, env.downloadError = some m → m ≠ "")
    (he : ∀ m, env.extractError = some m → m ≠ "")
    (hu : ∀ m, env.uploadError = some m → m ≠ "") :
    ∀ msg, (staticTry env).error = some msg → msg ≠ "" := by
  intro msg
  simp only [staticTry]
  split
  · rename_i m' heq
    intro h
    simp at h
    rw [← h]
    exact hd m' heq
  · split
    · rename_i m' heq
      intro h
      simp at h
      rw [← h]
      exact he m' heq
    · split
      · intro h
        simp at h
        rw [← h]
        decide
      · exact staticAfter_error_nonempty env _ hu msg

theorem staticTry_halt (env : StaticEnv) :
    (staticTry env).error.isSome = true →
    (hasStage "uploading" (staticTry env).events = false
      ∧ hasUpload (staticTry env).events = false)
    ∨ (∃ m, env.uploadError = some m ∧ (staticTry env).error = some m) := by
  simp only [staticTry]
  split
  · intro _
    left
    refine ⟨?_, ?_⟩ <;> simp [hasStage, hasUpload]
  · split
    · intro _
      left
      refine ⟨?_, ?_⟩ <;> simp [hasStage, hasUpload]
    · split
      · intro _
        left
        refine ⟨?_, ?_⟩ <;> simp [hasStage, hasUpload]
      · intro herr
        rcases staticAfter_halt env
            (capFrames ((extractedCams env.numVideos env.framesPerCam).flatten)
              env.maxFrames) herr with ⟨h1, h2⟩ | ⟨m, hm1, hm2⟩
        · left
          refine ⟨?_, ?_⟩ <;>
            simp [hasStage_append, hasUpload_append, hasStage_cons, hasUpload_cons,
              hasStage_nil, hasUpload_nil, h1, h2]
        · right
          exact ⟨m, hm1, hm2⟩

theorem exportUpload4d_error_nonempty (env : Env4d) (thumb : Bool)
    (hu : ∀ m, env.uploadError = some m → m ≠ "") :
    ∀ msg, (exportUpload4d env thumb).2.1 = some msg → msg ≠ "" := by
  intro msg
  simp only [exportUpload4d]
  split
  · intro h
    simp at h
    rw [← h]
    decide
  · split
    · intro h
      simp at h
      rw [← h]
      decide
    · split
      · intro h
        simp at h
        rw [← h]
        decide
      · split
        · rename_i m' heq
          intro h
          simp at h
          rw [← h]
          exact hu m' heq
        · intro h
          simp at h

theorem exportUpload4d_halt (env : Env4d) (thumb : Bool) :
    (exportUpload4d env thumb).2.1.isSome = true →
    (hasStage "uploading" (exportUpload4d env thumb).1 = false
      ∧ hasUpload (exportUpload4d env thumb).1 = false)
    ∨ (∃ m, env.uploadError = some m ∧ (exportUpload4d env thumb).2.1 = some m) := by
  simp only [exportUpload4d]
  split
  · intro _
    left
    refine ⟨?_, ?_⟩ <;> simp [hasStage, hasUpload]
  · split
    · intro _
      left
      refine ⟨?_, ?_⟩ <;> simp [hasStage, hasUpload]
    · split
      · intro _
        left
        refine ⟨?_, ?_⟩ <;> simp [hasStage, hasUpload]
      · split
        · rename_i m' heq
          intro _
          right
          exact ⟨m', heq, rfl⟩
        · intro herr
          simp at herr

theorem after4d_error_nonempty (env : Env4d) (selected : List Frame) (thumb : Bool)
    (hu : ∀ m, env.uploadError = some m → m ≠ "") :
    ∀ msg, (afterExtract4d env selected thumb).2.1 = some msg → msg ≠ "" := by
  intro msg
  simp only [afterExtract4d]
  split
  · intro h
    simp at h
    rw [← h]
    decide
  · split
    · intro h
      simp at h
      rw [← h]
      decide
    · split
      · intro h
        simp at h
        rw [← h]
        decide
      · split
        · intro h
          simp at h
          rw [← h]
          decide
        · split
          · intro h
            simp at h
            rw [← h]
            decide
          · split
            · exact exportUpload4d_error_nonempty env thumb hu msg
            · intro h
              simp at h
              rw [← h]
              exact append_left_ne_empty _ _ (by decide)

theorem after4d_halt (env : Env4d) (selected : List Frame) (thumb : Bool) :
    (afterExtract4d env selected thumb).2.1.isSome = true →
    (hasStage "uploading" (afterExtract4d env selected thumb).1 = false
      ∧ hasUpload (afterExtract4d env selected thumb).1 = false)
    ∨ (∃ m, env.uploadError = some m
        ∧ (afterExtract4d env selected thumb).2.1 = some m) := by
  simp only [afterExtract4d]
  split
  · intro _
    left
    refine ⟨?_, ?_⟩ <;> simp [hasStage, hasUpload]
  · split
    · intro _
      left
      refine ⟨?_, ?_⟩ <;>
        simp [hasStage_append, hasUpload_append, hasStage_cons, hasUpload_cons,
          hasStage_nil, hasUpload_nil]
    · split
      · intro _
        left
        refine ⟨?_, ?_⟩ <;>
          simp [hasStage_append, hasUpload_append, hasStage_cons, hasUpload_cons,
            hasStage_nil, hasUpload_nil]
      · split
        · intro _
          left
          refine ⟨?_, ?_⟩ <;>
            simp [hasStage_append, hasUpload_append, hasStage_cons, hasUpload_cons,
              hasStage_nil, hasUpload_nil]
        · split
          · intro _
            left
            refine ⟨?_, ?_⟩ <;>
              simp [hasStage_append, hasUpload_append, hasStage_cons, hasUpload_cons,
                hasStage_nil, hasUpload_nil]
          · split
            · intro herr
              have ht := hasStage_trainingEvents "uploading" "training_4d" 50 30
                env.trainingStream (by decide)
              have ht' := hasUpload_trainingEvents "training_4d" 50 30 env.trainingStream
              rcases exportUpload4d_halt env thumb herr with ⟨h1, h2⟩ | ⟨m, hm1, hm2⟩
              · left
                refine ⟨?_, ?_⟩ <;>
                  simp [hasStage_append, hasUpload_append, hasStage_cons, hasUpload_cons,
                    hasStage_nil, hasUpload_nil, h1, h2, ht, ht']
              · right
                exact ⟨m, hm1, hm2⟩
            · intro _
              left
              have ht := hasStage_trainingEvents "uploading" "training_4d" 50 30
                env.trainingStream (by decide)
              have ht' := hasUpload_trainingEvents "training_4d" 50 30 env.trainingStream
              refine ⟨?_, ?_⟩ <;>
                simp [hasStage_append, hasUpload_append, hasStage_cons, hasUpload_cons,
                  hasStage_nil, hasUpload_nil, ht, ht']

theorem try4d_error_nonempty (env : Env4d)
    (hd : ∀ m, env.downloadError = some m → m ≠ "")
    (he : ∀ m, env.extractError = some m → m ≠ "")
    (hu : ∀ m, env.uploadError = some m → m ≠ "") :
    ∀ msg, (try4d env).error = some msg → msg ≠ "" := by
  intro msg
  simp only [try4d]
  split
  · rename_i m' heq
    intro h
    simp at h
    rw [← h]
    exact hd m' heq
  · split
    · rename_i m' heq
      intro h
      simp at h
      rw [← h]
      exact he m' heq
    · split
      · intro h
        simp at h
        rw [← h]
        decide
      · exact after4d_error_nonempty env _ _ hu msg

theorem try4d_halt (env : Env4d) :
    (try4d env).error.isSome = true →
    (hasStage "uploading" (try4d env).events = false
      ∧ hasUpload (try4d env).events = false)
    ∨ (∃ m, env.uploadError = some m ∧ (try4d env).error = some m) := by
  simp only [try4d]
  split
  · intro _
    left
    refine ⟨?_, ?_⟩ <;> simp [hasStage, hasUpload]
  · split
    · intro _
      left
      refine ⟨?_, ?_⟩ <;> simp [hasStage, hasUpload]
    · split
      · intro _
        left
        refine ⟨?_, ?_⟩ <;> simp [hasStage, hasUpload]
      · intro herr
        rcases after4d_halt env
            (((extractedCams env.numVideos env.framesPerCam).map
              (fun c => capCamera4d c env.maxFrames)).flatten)
            (!(((extractedCams env.numVideos env.framesPerCam).map
              (fun c => capCamera4d c env.maxFrames)).headD []).isEmpty)
            herr with ⟨h1, h2⟩ | ⟨m, hm1, hm2⟩
        · left
          refine ⟨?_, ?_⟩ <;>
            (simp only [hasStage_append, hasUpload_append, hasStage_cons, hasUpload_cons,
              hasStage_nil, hasUpload_nil, h1, h2, Bool.or_false, Bool.false_or]
             try decide)
        · right
          exact ⟨m, hm1, hm2⟩

/- ### Claim theorems -/

/-- C3, counterexample to the claim as stated: at N = 1, M = 0 we have
M ≤ N, the sampler yields exactly M = 0 frames, but the selection does not
include source index 0, so the claimed conjunction fails. -/
theorem c3_counterexample :
    (0 : Nat) ≤ 1
    ∧ (sampleFrames ([((0 : Nat), (0 : Nat))] : List Frame) 0).length = 0
    ∧ ¬ (0 ∈ sampleIndices 1 0) := by
  decide

/-- C3 (amended: additionally require 1 ≤ M): for every ordered frame list
of length N and every cap M with 1 ≤ M ≤ N, sampling selects exactly M
frames, the selected source indices are strictly increasing, and source
index 0 is among them. -/
theorem c3_sampler_cap (l : List Frame) (m : Nat) (h1 : 1 ≤ m) (h2 : m ≤ l.length) :
    (sampleFrames l m).length = m
    ∧ (sampleIndices l.length m).Pairwise (· < ·)
    ∧ 0 ∈ sampleIndices l.length m := by
  refine ⟨?_, sampleIndices_pairwise h2, sampleIndices_zero_mem h1⟩
  simp [sampleFrames, sampleIndices_length]

/-- Witness for C3's amended theorem at N = 3, M = 2. -/
theorem c3_sampler_cap_witness :
    (sampleFrames ([(0, 0), (0, 1), (0, 2)] : List Frame) 2).length = 2
    ∧ (sampleIndices 3 2).Pairwise (· < ·)
    ∧ 0 ∈ sampleIndices 3 2 := by
  have h := c3_sampler_cap ([(0, 0), (0, 1), (0, 2)] : List Frame) 2
    (by decide) (by decide)
  simpa using h

/-- C8: when the extracted frame count is within the cap (N ≤ M), both
workers' capping steps are the identity: all N frames are kept in
unchanged order. -/
theorem c8_cap_identity (l : List Frame) (m : Nat) (h : l.length ≤ m) :
    capFrames l m = l ∧ capCamera4d l m = l := by
  constructor
  · unfold capFrames
    rw [if_neg (by omega)]
  · unfold capCamera4d
    rw [if_neg (by omega)]

/-- Witness for C8 at N = 2, M = 5. -/
theorem c8_cap_identity_witness :
    capFrames ([(0, 0), (0, 1)] : List Frame) 5 = [(0, 0), (0, 1)]
    ∧ capCamera4d ([(0, 0), (0, 1)] : List Frame) 5 = [(0, 0), (0, 1)] :=
  c8_cap_identity ([(0, 0), (0, 1)] : List Frame) 5 (by decide)

/-- C10: for N > M ≥ 1, every sampled index int(i * (N / M)) is strictly
below N, so indexing the frame list is always in bounds. -/
theorem c10_sample_indices_in_bounds (l : List Frame) (m : Nat)
    (h1 : 1 ≤ m) (h2 : m < l.length) :
    ∀ i ∈ sampleIndices l.length m, i < l.length :=
  sampleIndices_bound h1 (Nat.le_of_lt h2)

/-- Witness for C10 at N = 3, M = 2. -/
theorem c10_sample_indices_in_bounds_witness :
    (sampleIndices 3 2).all (fun i => decide (i < 3)) = true := by
  have h := c10_sample_indices_in_bounds ([(0, 0), (0, 1), (0, 2)] : List Frame) 2
    (by decide) (by decide)
  exact List.all_eq_true.2 (fun i hi => decide_eq_true (h i hi))

/-- C9: the progress reporter catches every transport failure: it always
returns normally, and a network error is turned into a log line rather
than an exception reaching the caller. -/
theorem c9_send_progress_never_raises (pid stage : String) (pct : Nat)
    (t : TransportOutcome) :
    exceptOk (send_progress pid stage pct t) = true
    ∧ (∀ m : String, t = TransportOutcome.netError m →
        send_progress pid stage pct t
          = Except.ok ["[" ++ pid ++ "] Progress update failed: " ++ m]) := by
  constructor
  · cases t <;> rfl
  · intro m hm
    subst hm
    rfl

/-- Witness for C9 on a failing transport. -/
theorem c9_send_progress_never_raises_witness :
    send_progress "p1" "downloading" 5 (TransportOutcome.netError "connection reset")
      = Except.ok ["[p1] Progress update failed: connection reset"] :=
  (c9_send_progress_never_raises "p1" "downloading" 5
    (TransportOutcome.netError "connection reset")).2 "connection reset" rfl

/-- C4: reconstruction fallback.  When GLOMAP exits 0 the COLMAP mapper is
never invoked and the stage succeeds; when GLOMAP fails the COLMAP mapper
is invoked exactly once, on the same database and image directory, after
an intermediate fallback progress report, and the stage succeeds iff the
COLMAP mapper succeeds. -/
theorem c4_fallback_short_circuit (g : Int) (cm : MapperOutcome) :
    (g = 0 →
      countInvocations "colmap_mapper" (reconStage g cm).1 = 0
      ∧ (reconStage g cm).2 = none)
    ∧ (g ≠ 0 →
      countInvocations "colmap_mapper" (reconStage g cm).1 = 1
      ∧ (∃ mid, (reconStage g cm).1
          = [Event.progress "glomap" 50 "Reconstructing 3D structure",
             Event.invoke "glomap_mapper" dbPath imgPath] ++ mid
            ++ [Event.invoke "colmap_mapper" dbPath imgPath]
          ∧ ∃ msg, Event.progress "glomap" 55 msg ∈ mid)
      ∧ ((reconStage g cm).2 = none ↔ cm = MapperOutcome.ok)) := by
  constructor
  · intro hg
    simp [reconStage, hg, countInvocations]
  · intro hg
    refine ⟨?_, ?_, ?_⟩
    · cases cm <;> simp [reconStage, hg, countInvocations]
    · refine ⟨[Event.progress "glomap" 55 "Using COLMAP fallback reconstruction"],
        ?_, "Using COLMAP fallback reconstruction", by simp⟩
      cases cm <;> simp [reconStage, hg]
    · cases cm <;> simp [reconStage, hg]

/-- Witness for C4: primary success means zero fallback invocations;
primary failure means exactly one, and the stage outcome follows the
fallback engine. -/
theorem c4_fallback_short_circuit_witness :
    (countInvocations "colmap_mapper" (reconStage 0 MapperOutcome.timeout).1 = 0
      ∧ (reconStage 0 MapperOutcome.timeout).2 = none)
    ∧ countInvocations "colmap_mapper" (reconStage 1 MapperOutcome.ok).1 = 1
    ∧ (reconStage 1 MapperOutcome.ok).2 = none := by
  refine ⟨(c4_fallback_short_circuit 0 MapperOutcome.timeout).1 rfl, ?_, ?_⟩
  · exact ((c4_fallback_short_circuit 1 MapperOutcome.ok).2 (by decide)).1
  · exact ((c4_fallback_short_circuit 1 MapperOutcome.ok).2 (by decide)).2.2.2 rfl

/-- A two-camera static job: camera 0 extracts 3 frames, camera 1 extracts
1 frame, cap 2; every external engine succeeds. -/
def staticEnvTwoCam : StaticEnv :=
  { production_id := "p1", experience_id := "e1", callback_url := "http://cb",
    numVideos := 2, downloadError := none, extractError := none,
    framesPerCam := fun c => if c = 0 then 3 else 1, maxFrames := 2,
    featureOk := true, matchOk := true, glomapExit := 0,
    colmapMapper := MapperOutcome.ok, modelFound := true,
    trainingStream := [], trainingExit := 0, splatExists := true,
    converterOk := true, uploadError := none }

/-- C1, counterexample to the claim as stated: on a two-camera job (3 and
1 extracted frames, cap 2) the static worker feeds COLMAP the frames
sampled from the merged pool, `[(0,0), (0,2)]`, dropping camera 1
entirely, whereas per-camera sampling before merging would keep
`[(0,0), (0,1), (1,0)]`. -/
theorem c1_counterexample :
    staticEnvTwoCam.numVideos = 2
    ∧ (process_production staticEnvTwoCam).selectedFrames = [(0, 0), (0, 2)]
    ∧ perCameraCap (extractedCams staticEnvTwoCam.numVideos staticEnvTwoCam.framesPerCam)
        staticEnvTwoCam.maxFrames = [(0, 0), (0, 1), (1, 0)]
    ∧ (process_production staticEnvTwoCam).selectedFrames
        ≠ perCameraCap (extractedCams staticEnvTwoCam.numVideos staticEnvTwoCam.framesPerCam)
            staticEnvTwoCam.maxFrames := by
  decide

/-- C1 (amended): the 4D worker caps each camera's frames independently
before merging, and its per-camera cap computes exactly the uniform
sampler; the static worker instead applies the sampler to the merged pool
of all cameras' frames. -/
theorem c1_sampling_policy :
    (∀ env : StaticEnv, env.downloadError = none → env.extractError = none →
      1 ≤ env.maxFrames →
      (process_production env).selectedFrames
        = capFrames ((extractedCams env.numVideos env.framesPerCam).flatten) env.maxFrames)
    ∧ (∀ env : Env4d, env.downloadError = none → env.extractError = none →
      1 ≤ env.maxFrames →
      (process_production_4d env).selectedFrames
        = perCameraCap (extractedCams env.numVideos env.framesPerCam) env.maxFrames) := by
  constructor
  · intro env h1 h2 h3
    simp only [process_production, staticTry, h1, h2]
    rw [if_neg (by omega)]
  · intro env h1 h2 h3
    simp only [process_production_4d, try4d, h1, h2]
    rw [if_neg (by omega)]
    show ((extractedCams env.numVideos env.framesPerCam).map
      (fun c => capCamera4d c env.maxFrames)).flatten = _
    unfold perCameraCap
    congr 1
    exact List.map_congr_left (fun c _ => capCamera4d_eq_capFrames c env.maxFrames)

/-- A one-camera 4D job with 5 extracted frames, cap 150, everything
succeeding and 3 exported per-timestamp files. -/
def env4dSmall : Env4d :=
  { production_id := "p2", experience_id := "e2", callback_url := "http://cb",
    numVideos := 1, downloadError := none, extractError := none,
    framesPerCam := fun _ => 5, maxFrames := 150,
    featureOk := true, matchOk := true, mapperOk := true, modelFound := true,
    converterOk := true, trainingStream := [], trainingExit := 0,
    exportOk := true, exportDirExists := true, exportedCount := 3,
    uploadError := none }

/-- Witness for C1's amended theorem on concrete two-camera jobs. -/
theorem c1_sampling_policy_witness :
    (process_production staticEnvTwoCam).selectedFrames
      = capFrames ((extractedCams staticEnvTwoCam.numVideos
          staticEnvTwoCam.framesPerCam).flatten) staticEnvTwoCam.maxFrames
    ∧ (process_production_4d env4dSmall).selectedFrames
      = perCameraCap (extractedCams env4dSmall.numVideos env4dSmall.framesPerCam)
          env4dSmall.maxFrames :=
  ⟨c1_sampling_policy.1 staticEnvTwoCam rfl rfl (by decide),
   c1_sampling_policy.2 env4dSmall rfl rfl (by decide)⟩

/-- A one-camera static job in which ffmpeg succeeds but extracts zero
frames, with every external engine succeeding. -/
def staticEnvZeroFrames : StaticEnv :=
  { production_id := "p3", experience_id := "e3", callback_url := "http://cb",
    numVideos := 1, downloadError := none, extractError := none,
    framesPerCam := fun _ => 0, maxFrames := 300,
    featureOk := true, matchOk := true, glomapExit := 0,
    colmapMapper := MapperOutcome.ok, modelFound := true,
    trainingStream := [], trainingExit := 0, splatExists := true,
    converterOk := true, uploadError := none }

/-- C2, counterexample to the claim as stated: on a job whose aggregate
extracted frame count is zero, the COLMAP feature extractor is still
invoked (there is no fail-fast check), and with all engines succeeding
the orchestration even reports success. -/
theorem c2_counterexample :
    ((extractedCams staticEnvZeroFrames.numVideos
        staticEnvZeroFrames.framesPerCam).flatten).length = 0
    ∧ Event.invoke "colmap_feature_extractor" dbPath imgPath
        ∈ (process_production staticEnvZeroFrames).events
    ∧ (process_production staticEnvZeroFrames).envelope.success = true := by
  decide

/-- C2 (amended): the static worker performs no aggregate-zero-frame
check: whenever downloads and extraction succeed (and the frame cap is
positive), the COLMAP feature extractor is invoked regardless of the
aggregate frame count; and a camera — or even every camera — yielding
zero frames never by itself fails the job: with all engine outcomes
successful, the job succeeds whatever the frame counts. -/
theorem c2_no_zero_frame_check (env : StaticEnv)
    (h1 : env.downloadError = none) (h2 : env.extractError = none)
    (h3 : 1 ≤ env.maxFrames) :
    Event.invoke "colmap_feature_extractor" dbPath imgPath
      ∈ (process_production env).events
    ∧ (env.featureOk = true → env.matchOk = true → env.glomapExit = 0 →
       env.modelFound = true → env.trainingExit = 0 → env.splatExists = true →
       env.converterOk = true → env.uploadError = none →
       (process_production env).envelope.success = true) := by
  constructor
  · have hmem := feature_invoke_mem_staticAfter env
      (capFrames ((extractedCams env.numVideos env.framesPerCam).flatten) env.maxFrames)
    simp only [process_production, staticTry, h1, h2]
    rw [if_neg (by omega)]
    simp [List.mem_append, hmem]
  · intro hf hm hg hmod ht hs hc hu
    simp only [process_production, staticTry, staticAfterSampling, reconStage,
      h1, h2, hf, hm, hg, hmod, ht, hs, hc, hu]
    rw [if_neg (by omega)]
    simp

/-- Witness for C2's amended theorem on the concrete zero-frame job. -/
theorem c2_no_zero_frame_check_witness :
    Event.invoke "colmap_feature_extractor" dbPath imgPath
      ∈ (process_production staticEnvZeroFrames).events
    ∧ (process_production staticEnvZeroFrames).envelope.success = true := by
  have h := c2_no_zero_frame_check staticEnvZeroFrames rfl rfl (by decide)
  exact ⟨h.1, h.2 rfl rfl rfl rfl rfl rfl rfl rfl⟩

/-- C5: whenever any stage of a job fails, the cleanup finalizer and (when
a callback URL was supplied) the completion callback still run, the Result
Envelope has success = false with a non-empty error message, and no later
stage is entered: either the Uploading stage was never reached (no
uploading progress report and no artifact upload) or the failure was the
upload stage's own.  The finalizers run unconditionally, on success too.
The last two conjuncts instantiate the claim's example: a failed
Downloading stage never reaches Uploading — in both workers. -/
theorem c5_failure_finalizers :
    (∀ env : StaticEnv,
      Event.cleanup ∈ (process_production env).events
      ∧ (env.callback_url ≠ "" → Event.callback ∈ (process_production env).events)
      ∧ ((process_production env).envelope.error.isSome = true →
          (process_production env).envelope.success = false
          ∧ ((∀ m, env.downloadError = some m → m ≠ "") →
             (∀ m, env.extractError = some m → m ≠ "") →
             (∀ m, env.uploadError = some m → m ≠ "") →
             ∃ msg, (process_production env).envelope.error = some msg ∧ msg ≠ "")
          ∧ ((hasStage "uploading" (process_production env).events = false
              ∧ hasUpload (process_production env).events = false)
             ∨ (∃ m, env.uploadError = some m
                 ∧ (process_production env).envelope.error = some m))))
    ∧ (∀ env : Env4d,
      Event.cleanup ∈ (process_production_4d env).events
      ∧ (env.callback_url ≠ "" → Event.callback ∈ (process_production_4d env).events)
      ∧ ((process_production_4d env).envelope.error.isSome = true →
          (process_production_4d env).envelope.success = false
          ∧ ((∀ m, env.downloadError = some m → m ≠ "") →
             (∀ m, env.extractError = some m → m ≠ "") →
             (∀ m, env.uploadError = some m → m ≠ "") →
             ∃ msg, (process_production_4d env).envelope.error = some msg ∧ msg ≠ "")
          ∧ ((hasStage "uploading" (process_production_4d env).events = false
              ∧ hasUpload (process_production_4d env).events = false)
             ∨ (∃ m, env.uploadError = some m
                 ∧ (process_production_4d env).envelope.error = some m))))
    ∧ (∀ (env : StaticEnv) (m : String), env.downloadError = some m → m ≠ "" →
      env.callback_url ≠ "" →
      hasStage "uploading" (process_production env).events = false
      ∧ hasUpload (process_production env).events = false
      ∧ (process_production env).envelope.success = false
      ∧ (process_production env).envelope.error = some m
      ∧ Event.cleanup ∈ (process_production env).events
      ∧ Event.callback ∈ (process_production env).events)
    ∧ (∀ (env : Env4d) (m : String), env.downloadError = some m → m ≠ "" →
      env.callback_url ≠ "" →
      hasStage "uploading" (process_production_4d env).events = false
      ∧ hasUpload (process_production_4d env).events = false
      ∧ (process_production_4d env).envelope.success = false
      ∧ (process_production_4d env).envelope.error = some m
      ∧ Event.cleanup ∈ (process_production_4d env).events
      ∧ Event.callback ∈ (process_production_4d env).events) := by
  refine ⟨?_, ?_, ?_, ?_⟩
  · intro env
    refine ⟨by simp [process_production], ?_, ?_⟩
    · intro hcb
      simp [process_production, hcb]
    · intro herr
      simp only [process_production] at herr
      refine ⟨?_, ?_, ?_⟩
      · simp only [process_production]
        cases he : (staticTry env).error with
        | none => rw [he] at herr; simp at herr
        | some m => rfl
      · intro hd hex hu
        cases he : (staticTry env).error with
        | none => rw [he] at herr; simp at herr
        | some msg =>
            exact ⟨msg, by simp [process_production, he],
              staticTry_error_nonempty env hd hex hu msg he⟩
      · rcases staticTry_halt env herr with ⟨h1, h2⟩ | ⟨m, hm1, hm2⟩
        · left
          constructor
          · simp only [process_production, hasStage_append, h1, Bool.false_or]
            by_cases hcb : env.callback_url = "" <;>
              simp [hcb, hasStage_cons, hasStage_nil]
          · simp only [process_production, hasUpload_append, h2, Bool.false_or]
            by_cases hcb : env.callback_url = "" <;>
              simp [hcb, hasUpload_cons, hasUpload_nil]
        · right
          exact ⟨m, hm1, by simp [process_production, hm2]⟩
  · intro env
    refine ⟨by simp [process_production_4d], ?_, ?_⟩
    · intro hcb
      simp [process_production_4d, hcb]
    · intro herr
      simp only [process_production_4d] at herr
      refine ⟨?_, ?_, ?_⟩
      · simp only [process_production_4d]
        cases he : (try4d env).error with
        | none => rw [he] at herr; simp at herr
        | some m => rfl
      · intro hd hex hu
        cases he : (try4d env).error with
        | none => rw [he] at herr; simp at herr
        | some msg =>
            exact ⟨msg, by simp [process_production_4d, he],
              try4d_error_nonempty env hd hex hu msg he⟩
      · rcases try4d_halt env herr with ⟨h1, h2⟩ | ⟨m, hm1, hm2⟩
        · left
          constructor
          · simp only [process_production_4d, hasStage_append, h1, Bool.false_or]
            by_cases hcb : env.callback_url = "" <;>
              simp [hcb, hasStage_cons, hasStage_nil]
          · simp only [process_production_4d, hasUpload_append, h2, Bool.false_or]
            by_cases hcb : env.callback_url = "" <;>
              simp [hcb, hasUpload_cons, hasUpload_nil]
        · right
          exact ⟨m, hm1, by simp [process_production_4d, hm2]⟩
  · intro env m hdl hm hcb
    simp only [process_production, staticTry, hdl]
    rw [if_neg hcb]
    refine ⟨by decide, by decide, by trivial, by trivial, by decide, by decide⟩
  · intro env m hdl hm hcb
    simp only [process_production_4d, try4d, hdl]
    rw [if_neg hcb]
    refine ⟨by decide, by decide, by trivial, by trivial, by decide, by decide⟩

/-- A static job whose first download raises. -/
def staticEnvDownloadFail : StaticEnv :=
  { production_id := "p4", experience_id := "e4", callback_url := "http://cb",
    numVideos := 1, downloadError := some "Download failed: connection reset",
    extractError := none, framesPerCam := fun _ => 10, maxFrames := 300,
    featureOk := true, matchOk := true, glomapExit := 0,
    colmapMapper := MapperOutcome.ok, modelFound := true,
    trainingStream := [], trainingExit := 0, splatExists := true,
    converterOk := true, uploadError := none }

/-- A 4D job whose first download raises. -/
def env4dDownloadFail : Env4d :=
  { production_id := "p5", experience_id := "e5", callback_url := "http://cb",
    numVideos := 1, downloadError := some "Download failed: connection reset",
    extractError := none, framesPerCam := fun _ => 10, maxFrames := 150,
    featureOk := true, matchOk := true, mapperOk := true, modelFound := true,
    converterOk := true, trainingStream := [], trainingExit := 0,
    exportOk := true, exportDirExists := true, exportedCount := 3,
    uploadError := none }

/-- A static job that fails at the Training stage (OpenSplat exits 2). -/
def staticEnvTrainFail : StaticEnv :=
  { production_id := "p9", experience_id := "e9", callback_url := "http://cb",
    numVideos := 1, downloadError := none, extractError := none,
    framesPerCam := fun _ => 10, maxFrames := 300,
    featureOk := true, matchOk := true, glomapExit := 0,
    colmapMapper := MapperOutcome.ok, modelFound := true,
    trainingStream := [], trainingExit := 2, splatExists := true,
    converterOk := true, uploadError := none }

/-- A 4D job that fails at the Export stage (the export subprocess exits
nonzero). -/
def env4dExportCrash : Env4d :=
  { production_id := "p10", experience_id := "e10", callback_url := "http://cb",
    numVideos := 1, downloadError := none, extractError := none,
    framesPerCam := fun _ => 10, maxFrames := 150,
    featureOk := true, matchOk := true, mapperOk := true, modelFound := true,
    converterOk := true, trainingStream := [], trainingExit := 0,
    exportOk := false, exportDirExists := true, exportedCount := 3,
    uploadError := none }

/-- Witness for C5: a Training-stage failure (static) and an Export-stage
failure (4D) both halt before Uploading with failed envelopes and the
finalizers run, and the download-failure instances hold as stated. -/
theorem c5_failure_finalizers_witness :
    ((process_production staticEnvTrainFail).envelope.success = false
      ∧ hasStage "uploading" (process_production staticEnvTrainFail).events = false
      ∧ hasUpload (process_production staticEnvTrainFail).events = false
      ∧ Event.cleanup ∈ (process_production staticEnvTrainFail).events
      ∧ Event.callback ∈ (process_production staticEnvTrainFail).events)
    ∧ ((process_production_4d env4dExportCrash).envelope.success = false
      ∧ hasStage "uploading" (process_production_4d env4dExportCrash).events = false
      ∧ hasUpload (process_production_4d env4dExportCrash).events = false
      ∧ Event.cleanup ∈ (process_production_4d env4dExportCrash).events
      ∧ Event.callback ∈ (process_production_4d env4dExportCrash).events)
    ∧ (hasUpload (process_production staticEnvDownloadFail).events = false
      ∧ (process_production staticEnvDownloadFail).envelope.success = false
      ∧ (process_production staticEnvDownloadFail).envelope.error
          = some "Download failed: connection reset"
      ∧ Event.cleanup ∈ (process_production staticEnvDownloadFail).events
      ∧ Event.callback ∈ (process_production staticEnvDownloadFail).events)
    ∧ ((process_production_4d env4dDownloadFail).envelope.success = false
      ∧ Event.cleanup ∈ (process_production_4d env4dDownloadFail).events
      ∧ Event.callback ∈ (process_production_4d env4dDownloadFail).events) := by
  obtain ⟨p1, p2, p3, p4⟩ := c5_failure_finalizers
  have g1 := p1 staticEnvTrainFail
  have g2 := p2 env4dExportCrash
  have g3 := p3 staticEnvDownloadFail
    "Download failed: connection reset" rfl (by decide) (by decide)
  have g4 := p4 env4dDownloadFail
    "Download failed: connection reset" rfl (by decide) (by decide)
  have h1 := g1.2.2 (by decide)
  have h2 := g2.2.2 (by decide)
  refine ⟨⟨h1.1, ?_, ?_, g1.1, g1.2.1 (by decide)⟩,
    ⟨h2.1, ?_, ?_, g2.1, g2.2.1 (by decide)⟩,
    ⟨g3.2.1, g3.2.2.1, g3.2.2.2.1, g3.2.2.2.2.1, g3.2.2.2.2.2⟩,
    ⟨g4.2.2.1, g4.2.2.2.2.1, g4.2.2.2.2.2⟩⟩
  · rcases h1.2.2 with ⟨hs, _⟩ | ⟨m, hm, _⟩
    · exact hs
    · simp [staticEnvTrainFail] at hm
  · rcases h1.2.2 with ⟨_, hu⟩ | ⟨m, hm, _⟩
    · exact hu
    · simp [staticEnvTrainFail] at hm
  · rcases h2.2.2 with ⟨hs, _⟩ | ⟨m, hm, _⟩
    · exact hs
    · simp [env4dExportCrash] at hm
  · rcases h2.2.2 with ⟨_, hu⟩ | ⟨m, hm, _⟩
    · exact hu
    · simp [env4dExportCrash] at hm

/-- C7: a motion job whose per-frame export yields zero per-timestamp PLY
files fails with the empty-export message, and no artifact is uploaded. -/
theorem c7_empty_export (env : Env4d)
    (h1 : env.downloadError = none) (h2 : env.extractError = none)
    (h3 : 1 ≤ env.maxFrames) (h4 : env.featureOk = true) (h5 : env.matchOk = true)
    (h6 : env.mapperOk = true) (h7 : env.modelFound = true)
    (h8 : env.converterOk = true) (h9 : env.trainingExit = 0)
    (h10 : env.exportOk = true) (h11 : env.exportDirExists = true)
    (h12 : env.exportedCount = 0) :
    (process_production_4d env).envelope.success = false
    ∧ (process_production_4d env).envelope.error
        = some "Per-frame export produced no files"
    ∧ hasUpload (process_production_4d env).events = false := by
  simp only [process_production_4d, try4d, afterExtract4d, exportUpload4d,
    h1, h2, h4, h5, h6, h7, h8, h9, h10, h11, h12]
  rw [if_neg (by omega)]
  refine ⟨by simp, by simp, ?_⟩
  by_cases hcb : env.callback_url = "" <;>
    simp [hcb, hasUpload_append, hasUpload_cons, hasUpload_nil, hasUpload_trainingEvents]

/-- A 4D job (one camera, 10 frames) where training succeeds but the
per-frame export produces zero files. -/
def env4dEmptyExport : Env4d :=
  { production_id := "p6", experience_id := "e6", callback_url := "http://cb",
    numVideos := 1, downloadError := none, extractError := none,
    framesPerCam := fun _ => 10, maxFrames := 150,
    featureOk := true, matchOk := true, mapperOk := true, modelFound := true,
    converterOk := true, trainingStream := [], trainingExit := 0,
    exportOk := true, exportDirExists := true, exportedCount := 0,
    uploadError := none }

/-- Witness for C7 on the concrete empty-export job. -/
theorem c7_empty_export_witness :
    (process_production_4d env4dEmptyExport).envelope.success = false
    ∧ (process_production_4d env4dEmptyExport).envelope.error
        = some "Per-frame export produced no files"
    ∧ hasUpload (process_production_4d env4dEmptyExport).events = false :=
  c7_empty_export env4dEmptyExport rfl rfl (by decide) rfl rfl rfl rfl rfl rfl
    rfl rfl rfl

/-- C6: within one job run, the percentages handed to the progress
reporter are non-decreasing in call order, for both workers, provided the
training engines stream well-formed (monotone) iteration counters. -/
theorem c6_progress_monotone (env : StaticEnv) (env4 : Env4d)
    (h : StreamOK env.trainingStream) (h4 : StreamOK env4.trainingStream) :
    (progressPcts (process_production env).events).Pairwise (· ≤ ·)
    ∧ (progressPcts (process_production_4d env4).events).Pairwise (· ≤ ·) :=
  ⟨static_run_pcts_sorted env h, fourD_run_pcts_sorted env4 h4⟩

/-- A full static job with a training stream and a GLOMAP failure (so the
fallback checkpoint is exercised). -/
def staticEnvFallbackTrain : StaticEnv :=
  { production_id := "p7", experience_id := "e7", callback_url := "http://cb",
    numVideos := 1, downloadError := none, extractError := none,
    framesPerCam := fun _ => 10, maxFrames := 300,
    featureOk := true, matchOk := true, glomapExit := 1,
    colmapMapper := MapperOutcome.ok, modelFound := true,
    trainingStream := [(100, 1000), (500, 1000), (1000, 1000)],
    trainingExit := 0, splatExists := true,
    converterOk := true, uploadError := none }

/-- A full 4D job with a training stream and 12 exported frames (so the
upload checkpoints are exercised). -/
def env4dFullRun : Env4d :=
  { production_id := "p8", experience_id := "e8", callback_url := "http://cb",
    numVideos := 1, downloadError := none, extractError := none,
    framesPerCam := fun _ => 10, maxFrames := 150,
    featureOk := true, matchOk := true, mapperOk := true, modelFound := true,
    converterOk := true,
    trainingStream := [(3000, 30000), (15000, 30000), (30000, 30000)],
    trainingExit := 0,
    exportOk := true, exportDirExists := true, exportedCount := 12,
    uploadError := none }

/-- Witness for C6 on concrete full runs of both workers. -/
theorem c6_progress_monotone_witness :
    (progressPcts (process_production staticEnvFallbackTrain).events).Pairwise (· ≤ ·)
    ∧ (progressPcts (process_production_4d env4dFullRun).events).Pairwise (· ≤ ·) :=
  c6_progress_monotone staticEnvFallbackTrain env4dFullRun
    ⟨by decide, by
      show List.Chain' _ ([(100, 1000), (500, 1000), (1000, 1000)] : List (Nat × Nat))
      exact List.chain'_cons.2 ⟨by norm_num,
        List.chain'_cons.2 ⟨by norm_num, List.chain'_singleton _⟩⟩⟩
    ⟨by decide, by
      show List.Chain' _ ([(3000, 30000), (15000, 30000), (30000, 30000)] : List (Nat × Nat))
      exact List.chain'_cons.2 ⟨by norm_num,
        List.chain'_cons.2 ⟨by norm_num, List.chain'_singleton _⟩⟩⟩
